import Mathlib

/-!
Verification development for the Basic-RAG repository
(`src/app.py`, `src/ingest.py`, `src/main.py`).

The Python source is shallowly embedded below: pure text manipulation is
modelled over `List Char` / `String`, external collaborators (the Qdrant
client, the sentence-transformers encoder, parsers for PDF/Word/PowerPoint,
the filesystem, the RNG) are modelled as explicit function parameters whose
outcomes (`Except String _`) are the raised-exception messages the Python
code inspects.  All definitions are total and executable.
-/

/-! ## Basic string machinery (Python `str.lower`, `in`, `strip`) -/

/-- ASCII lower-casing of one character, modelling Python `str.lower()`
on the ASCII error messages the code matches against. -/
def lowerChar (c : Char) : Char :=
  if 'A' ≤ c ∧ c ≤ 'Z' then Char.ofNat (c.toNat + 32) else c

/-- Python `s.lower()` on a character list. -/
def lowerStr (s : List Char) : List Char := s.map lowerChar

/-- Does `hay` start with `needle`? -/
def listStartsWith : List Char → List Char → Bool
  | [], _ => true
  | _ :: _, [] => false
  | a :: as, b :: bs => a == b && listStartsWith as bs

/-- Python `needle in hay` (substring containment). -/
def listHasSub (needle : List Char) : List Char → Bool
  | [] => listStartsWith needle []
  | c :: t => listStartsWith needle (c :: t) || listHasSub needle t

/-- Python `needle in hay.lower()` where `needle` is already lower-case. -/
def lowerContains (needle hay : String) : Bool :=
  listHasSub needle.toList (lowerStr hay.toList)

/-- Case-sensitive Python `needle in hay`. -/
def containsCS (needle hay : String) : Bool :=
  listHasSub needle.toList hay.toList

/-- The characters Python `str.strip()` removes (ASCII whitespace). -/
def isPyWhitespace (c : Char) : Bool :=
  c = ' ' || c = '\t' || c = '\n' || c = '\r' ||
  c = Char.ofNat 11 || c = Char.ofNat 12

/-- Python `s.strip()` on a character list. -/
def pyStrip (s : List Char) : List Char :=
  ((s.dropWhile isPyWhitespace).reverse.dropWhile isPyWhitespace).reverse

/-! ## The two chunkers

`src/app.py` (upload tab, lines 910-916):

    while start < len(full_text):
        end = start + chunk_size
        chunks.append(full_text[start:end])
        start += chunk_size - overlap

`src/ingest.py` `chunk_text` (lines 57-66): the same loop but the slice is
`.strip()`-ed and appended only `if chunk:`.

Both loops are embedded with an explicit fuel argument; with a positive
step the loop performs at most `len(text)` iterations, so fuel
`text.length` makes the embedding exact on all terminating (valid-parameter)
executions. -/

/-- One `while` loop of the upload-tab chunker: fuel, then current `start`. -/
def chunksAux (text : List Char) (size step : Nat) : Nat → Nat → List (List Char)
  | 0, _ => []
  | fuel + 1, start =>
    if start < text.length then
      ((text.drop start).take size) :: chunksAux text size step fuel (start + step)
    else []

/-- The upload-tab chunking loop of `src/app.py` (lines 910-916). -/
def uploadChunks (text : List Char) (size overlap : Nat) : List (List Char) :=
  chunksAux text size (size - overlap) text.length 0

/-- One `while` loop of `chunk_text` from `src/ingest.py`. -/
def chunkTextAux (text : List Char) (size step : Nat) : Nat → Nat → List (List Char)
  | 0, _ => []
  | fuel + 1, start =>
    if start < text.length then
      let c := pyStrip ((text.drop start).take size)
      if c.isEmpty then chunkTextAux text size step fuel (start + step)
      else c :: chunkTextAux text size step fuel (start + step)
    else []

/-- Model of `chunk_text(text, chunk_size, chunk_overlap)` from
`src/ingest.py` (lines 57-66). -/
def chunk_text (text : List Char) (size overlap : Nat) : List (List Char) :=
  chunkTextAux text size (size - overlap) text.length 0

/-- Overlap-aware stitching from the round-trip property: the first chunk
whole, every later chunk with its leading `overlap` characters removed. -/
def stitch (overlap : Nat) : List (List Char) → List Char
  | [] => []
  | c :: cs => c ++ (cs.map (List.drop overlap)).flatten

/-- The chunk count formula claimed by the spec (C2), written from the
spec words: `ceil((L - overlap) / (size - overlap))` when `L > overlap`,
else 1 for `L > 0`, else 0. -/
def claimedChunkCount (L size overlap : Nat) : Nat :=
  if L = 0 then 0
  else if L ≤ overlap then 1
  else (L - overlap + (size - overlap) - 1) / (size - overlap)

/-! ## Error classification (`src/app.py`)

Each classifier is embedded separately from its own source site, since the
keyword sets differ between sites. -/

/-- Predicate `is_retryable` inside `retry_qdrant_operation` (app.py lines
151-158):
timeout, handshake, ssl, or connection as substrings of the lowered text. -/
def is_retryable (e : String) : Bool :=
  lowerContains "timeout" e || lowerContains "handshake" e ||
  lowerContains "ssl" e || lowerContains "connection" e

/-- Predicate `is_timeout` inside `ensure_collection_exists` (app.py line
185):
timeout, handshake, or ssl. -/
def ensure_is_timeout (e : String) : Bool :=
  lowerContains "timeout" e || lowerContains "handshake" e ||
  lowerContains "ssl" e

/-- Predicate `is_timeout` inside the upload-tab upsert retry loop (app.py
line 952):
timeout, handshake, or ssl - no generic connection keyword here. -/
def upsert_is_timeout (e : String) : Bool :=
  lowerContains "timeout" e || lowerContains "handshake" e ||
  lowerContains "ssl" e

/-- The literal needle `doesn` + apostrophe + `t exist` used at
app.py line 955. -/
def doesNotExistNeedle : List Char :=
  ['d', 'o', 'e', 's', 'n', Char.ofNat 39, 't', ' ', 'e', 'x', 'i', 's', 't']

/-- Predicate `is_not_found` inside the upload-tab upsert retry loop
(app.py line 955):
the lowered text contains `not found`, `doesn`+apostrophe+`t exist`,
or `404`. -/
def upsert_is_not_found (e : String) : Bool :=
  lowerContains "not found" e ||
  listHasSub doesNotExistNeedle (lowerStr e.toList) ||
  lowerContains "404" e

/-! ## The retry decorator and the upload-tab upsert loop

Both loops are embedded as functions of the per-attempt outcomes of the
external Qdrant calls (`Except.error` carries `str(exception)`).  The result
records the final outcome, the `time.sleep` delays observed between
attempts in order, and the number of attempts performed. -/

deriving instance DecidableEq for Except

/-- Final outcome, observed backoff delays, and number of attempts of a
retried operation. -/
structure OpResult where
  outcome : Except String Unit
  delays : List Nat
  attempts : Nat
deriving DecidableEq

/-- The `for attempt in range(max_retries)` loop of
`retry_qdrant_operation` (app.py lines 140-166).  The first `Nat` is the
remaining number of attempts (so `remaining = 0` inside an iteration means
`attempt == max_retries - 1`); the `String` is `last_error`. -/
def retry_aux (delay : Nat) (outcome : Nat → Except String Unit) :
    Nat → Nat → String → OpResult
  | 0, _, lastErr => ⟨.error lastErr, [], 0⟩
  | remaining + 1, attempt, _ =>
    match outcome attempt with
    | .ok _ => ⟨.ok (), [], 1⟩
    | .error e =>
      if is_retryable e ∧ 0 < remaining then
        let r := retry_aux delay outcome remaining (attempt + 1) e
        ⟨r.outcome, delay * (attempt + 1) :: r.delays, r.attempts + 1⟩
      else ⟨.error e, [], 1⟩

/-- Model of `retry_qdrant_operation(max_retries, delay)` applied to an
operation
whose attempt-by-attempt outcomes are `outcome` (app.py lines 140-166). -/
def retry_qdrant_operation (maxRetries delay : Nat)
    (outcome : Nat → Except String Unit) : OpResult :=
  retry_aux delay outcome maxRetries 0 ""

/-- The `for attempt in range(max_retries)` upsert loop of the upload tab
(app.py lines 943-988).  `uOut i` is the outcome of the `qdrant.upsert`
call on attempt `i`; `cOut i` is the outcome of the `create_collection`
call made inside attempt `i` when the upsert error is classified
not-found.  A branch that reaches neither `continue` with sleep, nor
`raise`, falls through to the next attempt with no delay, exactly as in
the Python control flow. -/
def upsert_loop_aux (uOut cOut : Nat → Except String Unit) :
    Nat → Nat → String → OpResult
  | 0, _, lastErr => ⟨.error lastErr, [], 0⟩
  | remaining + 1, attempt, _ =>
    match uOut attempt with
    | .ok _ => ⟨.ok (), [], 1⟩
    | .error e =>
      let r := upsert_loop_aux uOut cOut remaining (attempt + 1) e
      -- `continue` with no sleep
      let cont0 : OpResult := ⟨r.outcome, r.delays, r.attempts + 1⟩
      -- `time.sleep(2 * (attempt + 1))` then `continue`
      let contD : OpResult := ⟨r.outcome, 2 * (attempt + 1) :: r.delays, r.attempts + 1⟩
      -- the two checks after the not-found block
      let tail : OpResult :=
        if upsert_is_timeout e ∧ 0 < remaining then contD
        else if remaining = 0 then ⟨.error e, [], 1⟩
        else cont0
      if upsert_is_not_found e then
        match cOut attempt with
        | .ok _ => cont0
        | .error ce =>
          if lowerContains "already exists" ce then cont0
          else if (lowerContains "timeout" ce || lowerContains "handshake" ce)
              ∧ 0 < remaining then contD
          else tail
      else tail

/-- The upload-tab upsert retry loop with its hard-coded
`max_retries = 3` (app.py lines 939-988). -/
def upload_upsert_loop (uOut cOut : Nat → Except String Unit) : OpResult :=
  upsert_loop_aux uOut cOut 3 0 ""

/-! ## `ensure_collection_exists` (app.py lines 171-228)

The function is embedded as a total function of the outcomes of the two
external calls it can make: `qdrant.get_collection` (`getOut`) and
`qdrant.create_collection` (`createOut`, which also absorbs a failure of
`get_vector_size()`, raised inside the same `try`).  Every `except` branch
of the Python function ends in a `return`, so the embedding is a total
`Bool`-valued function: the source never lets an exception escape. -/

def ensure_collection_exists (clientPresent : Bool)
    (getOut createOut : Except String Unit) (silent : Bool) : Bool :=
  if !clientPresent then false
  else
    match getOut with
    | .ok _ => true
    | .error checkError =>
      -- timeout-like check failure: assume the collection exists
      if ensure_is_timeout checkError then true
      else
        match createOut with
        | .ok _ => true
        | .error createError =>
          if lowerContains "already exists" createError ||
              (lowerContains "collection" createError &&
               lowerContains "exists" createError) then true
          else if lowerContains "timeout" createError ||
              lowerContains "handshake" createError ||
              lowerContains "ssl" createError then true
          else
            -- `st.error(...)` unless silent, then `return True` anyway
            let _ := silent
            true

/-! ## The search tab query flow (app.py lines 660-699)

Embedded as a function of the query, the store-call outcomes and the LLM.
`queryOut` is the outcome of `qdrant.query_points`, already reduced to the
list of `payload["text"]` strings of the returned points; `llm query
context` is `generate_llm_answer`, which in the source catches every LLM
exception and returns an error string, hence is total here.  The whole
block runs inside `try/except`, whose handler produces the
`Error during search` message. -/

inductive SearchOutcome where
  /-- the warning telling the user the collection does not exist and to
  upload a document first -/
  | collectionWarn
  /-- the warning telling the user no results were found and to upload a
  document first -/
  | noResultsWarn
  /-- the AI response rendered from `generate_llm_answer` -/
  | aiResponse (ans : String)
  /-- the rendered search-error banner -/
  | searchError (msg : String)
deriving DecidableEq

def searchFlow (query : String) (clientPresent : Bool)
    (getOut createOut : Except String Unit)
    (queryOut : Except String (List String))
    (llm : String → String → String) : SearchOutcome :=
  if ensure_collection_exists clientPresent getOut createOut false then
    match queryOut with
    | .error e => .searchError ("Error during search: " ++ e)
    | .ok pts =>
      if pts.isEmpty then .noResultsWarn
      else .aiResponse (llm query (String.intercalate "\n\n" pts))
  else .collectionWarn

/-! ## The embedders (app.py lines 104-107, ingest.py lines 34-37,
main.py lines 25-28)

The external sentence-transformers model is an uninterpreted parameter
`model : String → Bool → List ℚ`, mapping the input text and the
`normalize_embeddings` keyword to the encoded vector (real-valued in the
library; rationals suffice for the statements proved here).
`app.py` and `main.py` call `model.encode(text, normalize_embeddings=True)`;
`ingest.py` calls `model.encode(text, convert_to_numpy=True)` and passes no
normalization flag. -/

/-- Function `embed` from `src/app.py` (and identically `src/main.py`). -/
def appEmbed (model : String → Bool → List ℚ) (text : String) : List ℚ :=
  model text true

/-- Function `embed` from `src/ingest.py`: no `normalize_embeddings`
argument. -/
def ingestEmbed (model : String → Bool → List ℚ) (text : String) : List ℚ :=
  model text false

/-- Squared L2 norm of a vector. -/
def sumSq (v : List ℚ) : ℚ := (v.map (fun x => x * x)).sum

/-- The sentence-transformers contract for `normalize_embeddings=True`:
whenever normalization is requested the returned vector is L2-normalized
(unit squared norm). -/
def NormalizedEncode (model : String → Bool → List ℚ) : Prop :=
  ∀ t, sumSq (model t true) = 1

/-! ## Point construction (app.py lines 922-928, ingest.py lines 98-115) -/

/-- A Qdrant point: id, vector, and the text payload. -/
structure Point where
  id : Nat
  vector : List ℚ
  text : String
deriving DecidableEq

/-- Point construction of the upload tab (app.py lines 922-928): the id of
the `i`-th point is `int(np.random.randint(1_000_000_000))`, modelled as the
`i`-th draw `rng i` of the random stream. -/
def appPoints (model : String → Bool → List ℚ) (rng : Nat → Nat)
    (chunks : List String) : List Point :=
  chunks.enum.map (fun ic => ⟨rng ic.1, appEmbed model ic.2, ic.2⟩)

/-- Point construction of `store_chunks` (ingest.py lines 98-115):
`PointStruct(id=idx, ...)` for `idx, chunk in enumerate(chunks)`. -/
def store_chunks (model : String → Bool → List ℚ)
    (chunks : List String) : List Point :=
  chunks.enum.map (fun ic => ⟨ic.1, ingestEmbed model ic.2, ic.2⟩)

/-! ## `extract_text_from_file` (app.py lines 509-585)

External parsers are parameters: `pdfPages` is the per-page
`page.extract_text() or ""` list of a successfully opened PDF; `docxOut`
is the outcome of `DocxDocument(file_path)` reduced to the paragraph text
list; `pptxOut` is the outcome of `Presentation(file_path)` reduced to the
slides, each a list of shapes.  `fileOnDisk` and `fileSize` model the
`os.path.exists` and `os.path.getsize` checks of the pptx branch; the
exceptions those checks raise are caught by the same `except` as a parse
failure, exactly as in the source. -/

/-- A PowerPoint shape: `text` is present iff `hasattr(shape, "text")`,
`tableCells` is present iff the shape has a table (cell texts in row-major
order). -/
structure PShape where
  text : Option String
  tableCells : Option (List String)
deriving DecidableEq

/-- The texts one shape contributes to `text_runs` (app.py lines 551-561):
its own text if non-blank, then its non-blank table cell texts. -/
def shapeTexts (sh : PShape) : List String :=
  (match sh.text with
   | some t => if (pyStrip t.toList).isEmpty then [] else [t]
   | none => []) ++
  (match sh.tableCells with
   | some cells => cells.filter (fun c => !(pyStrip c.toList).isEmpty)
   | none => [])

/-- Model of `extract_text_from_file(file_path, file_extension)` as a
function of
the detected extension and the external parser outcomes; returns
`(full_text, structural_count)` or the raised message. -/
def extract_text_from_file (file_extension : String)
    (pdfPages : List String)
    (docxOut : Except String (List String))
    (fileOnDisk : Bool) (fileSize : Nat)
    (pptxOut : Except String (List (List PShape)))
    (txtContent : String) : Except String (String × Nat) :=
  let ext := String.mk (lowerStr file_extension.toList)
  if ext = ".pdf" then
    .ok (String.intercalate "\n" pdfPages, pdfPages.length)
  else if ext = ".docx" ∨ ext = ".doc" then
    match docxOut with
    | .ok paras =>
      .ok (String.intercalate "\n"
            (paras.filter (fun p => !(pyStrip p.toList).isEmpty)),
           paras.length)
    | .error e =>
      .error ("Error reading Word document. For .doc files, please convert to .docx format. Error: " ++ e)
  else if ext = ".pptx" ∨ ext = ".ppt" then
    -- body of the `try` block; its raised messages land in `attempt`
    let attempt : Except String (String × Nat) :=
      if !fileOnDisk then .error "File not found at path: "
      else if fileSize = 0 then .error "PowerPoint file is empty or corrupted"
      else
        match pptxOut with
        | .error pe => .error pe
        | .ok slides =>
          let runs := (slides.map (fun sl => (sl.map shapeTexts).flatten)).flatten
          if runs.isEmpty then .ok ("", slides.length)
          else .ok (String.intercalate "\n" runs, slides.length)
    match attempt with
    | .ok r => .ok r
    | .error em =>
      if containsCS "Package not found" em || lowerContains "not a zip file" em then
        .error ("Invalid PowerPoint file. The file may be corrupted, incomplete, or not actually a PowerPoint file. If downloading from SharePoint, ensure you have a direct download link. Error: " ++ em)
      else if ext = ".ppt" then
        .error ("Error reading PowerPoint file. Legacy .ppt format is not fully supported. Please convert to .pptx format. Error: " ++ em)
      else
        .error ("Error reading PowerPoint file: " ++ em)
  else if ext = ".txt" then
    .ok (txtContent,
         ((txtContent.splitOn "\n").filter
           (fun l => !(pyStrip l.toList).isEmpty)).length)
  else
    .error ("Unsupported file format: " ++ ext)

/-! ## The upload-tab ingestion flow (app.py lines 854-1016)

Embedded from the point where the document has been staged to a temporary
file (`temp_path` is set).  `extractOut` is the outcome of
`extract_text_from_file`; `uOut`/`cOut` drive the upsert retry loop.  The
second component of the result records whether the staged temporary file
is still on disk when the flow returns: the success path and the outer
`except` handler run `os.unlink(temp_path)`, while the empty-extraction
branch only renders an error and falls off the end of the `try` block. -/

inductive UploadOutcome where
  /-- success banner with chunk and character counts -/
  | success (chunksCreated chars : Nat)
  /-- the rendered empty-extraction error banner -/
  | emptyExtract
  /-- the rendered processing-error banner -/
  | procError (msg : String)
deriving DecidableEq

/-- Flow outcome together with whether the staged temp file remains. -/
structure FlowResult where
  outcome : UploadOutcome
  tempFileRemains : Bool
deriving DecidableEq

def uploadFlow (model : String → Bool → List ℚ) (rng : Nat → Nat)
    (extractOut : Except String (String × Nat))
    (uOut cOut : Nat → Except String Unit) : FlowResult :=
  match extractOut with
  | .error e => ⟨.procError ("Error processing document: " ++ e), false⟩
  | .ok r =>
    let fullText := r.1
    if (pyStrip fullText.toList).isEmpty then
      -- empty extraction: error banner, no `os.unlink`
      ⟨.emptyExtract, true⟩
    else
      let chunks := (uploadChunks fullText.toList 500 100).map
        (fun c => String.mk c)
      let _points := appPoints model rng chunks
      -- ensure_collection_exists(silent=True) - result ignored by the flow
      match (upload_upsert_loop uOut cOut).outcome with
      | .ok _ => ⟨.success chunks.length fullText.length, false⟩
      | .error e => ⟨.procError ("Error processing document: " ++ e), false⟩

/-! ## Helper lemmas about the chunkers -/

/-- One step of the natural-number ceiling division `(m + d - 1) / d`. -/
theorem ceil_div_step (d m : Nat) (hd : 0 < d) (hm : 0 < m) :
    (m + d - 1) / d = (m - d + d - 1) / d + 1 := by
  rcases le_or_lt m d with h | h
  · have h1 : m - d = 0 := by omega
    have h2 : m + d - 1 = (m - 1) + d := by omega
    rw [h1, h2, Nat.add_div_right _ hd, Nat.div_eq_of_lt (show m - 1 < d by omega)]
    have h4 : 0 + d - 1 = d - 1 := by omega
    rw [h4, Nat.div_eq_of_lt (show d - 1 < d by omega)]
  · have h2 : m + d - 1 = (m - d + d - 1) + d := by omega
    rw [h2, Nat.add_div_right _ hd]

/-- Dropping the leading `overlap` characters of every chunk produced from
offset `start` and concatenating yields the source text from
`start + overlap` on. -/
theorem chunksAux_flatten_drop (t : List Char) (s o : Nat) (ho : o < s) :
    ∀ fuel start, t.length ≤ start + fuel →
      ((chunksAux t s (s - o) fuel start).map (List.drop o)).flatten =
        t.drop (start + o) := by
  intro fuel
  induction fuel with
  | zero =>
    intro start hle
    simp only [chunksAux, List.map_nil, List.flatten_nil]
    exact (List.drop_eq_nil_of_le (by omega)).symm
  | succ fuel ih =>
    intro start hle
    by_cases hlt : start < t.length
    · simp only [chunksAux, if_pos hlt, List.map_cons, List.flatten_cons]
      rw [ih (start + (s - o)) (by omega)]
      rw [List.drop_take, List.drop_drop]
      have h2 : t.drop (start + (s - o) + o)
          = (t.drop (start + o)).drop (s - o) := by
        rw [List.drop_drop]; congr 1; omega
      rw [h2]
      exact List.take_append_drop _ _
    · simp only [chunksAux, if_neg hlt, List.map_nil, List.flatten_nil]
      exact (List.drop_eq_nil_of_le (by omega)).symm

/-- The upload-tab chunking loop from offset `start` produces exactly the
slices `text[start + i*d : start + i*d + size]` for
`i < ceil((len - start) / d)`. -/
theorem chunksAux_eq_range (t : List Char) (s d : Nat) (hd : 0 < d) :
    ∀ fuel start, t.length ≤ start + fuel →
      chunksAux t s d fuel start =
        (List.range ((t.length - start + d - 1) / d)).map
          (fun i => (t.drop (start + i * d)).take s) := by
  intro fuel
  induction fuel with
  | zero =>
    intro start hle
    have h0 : t.length - start = 0 := by omega
    rw [h0, Nat.div_eq_of_lt (show 0 + d - 1 < d by omega)]
    simp [chunksAux]
  | succ fuel ih =>
    intro start hle
    by_cases hlt : start < t.length
    · have hm : 0 < t.length - start := by omega
      have hsub : t.length - start - d = t.length - (start + d) := by omega
      have hstep : (t.length - start + d - 1) / d
          = (t.length - (start + d) + d - 1) / d + 1 := by
        rw [← hsub]; exact ceil_div_step d _ hd hm
      rw [hstep, List.range_succ_eq_map, List.map_cons, List.map_map]
      simp only [chunksAux, if_pos hlt]
      congr 1
      · simp
      · rw [ih (start + d) (by omega)]
        apply List.map_congr_left
        intro i _
        have harg : start + d + i * d = start + Nat.succ i * d := by
          simp only [Nat.succ_eq_add_one]; ring
        simp only [Function.comp]
        rw [harg]
    · have h0 : t.length - start = 0 := by omega
      rw [h0, Nat.div_eq_of_lt (show 0 + d - 1 < d by omega)]
      simp [chunksAux, if_neg hlt]

/-- Relation: `chunk_text` is the upload-tab chunker followed by per-chunk
`strip`
and dropping of whitespace-only chunks. -/
theorem chunkTextAux_eq (t : List Char) (s d : Nat) :
    ∀ fuel start, chunkTextAux t s d fuel start =
      ((chunksAux t s d fuel start).map pyStrip).filter (fun c => !c.isEmpty) := by
  intro fuel
  induction fuel with
  | zero => intro start; simp [chunkTextAux, chunksAux]
  | succ fuel ih =>
    intro start
    by_cases hlt : start < t.length
    · simp only [chunkTextAux, chunksAux, if_pos hlt, List.map_cons, List.filter_cons]
      by_cases he : (pyStrip ((t.drop start).take s)).isEmpty
      · simp [he, ih]
      · simp [he, ih]
    · simp [chunkTextAux, chunksAux, if_neg hlt]

/-! ## Helper lemmas about the retry loops -/

/-- Lemma for `retry_qdrant_operation`: when every attempt fails with a
retryable
message, all attempts are consumed, with backoff `delay * attempt_number`
between consecutive attempts, and the last error is raised. -/
theorem retry_aux_all_retryable (delay : Nat) (e : Nat → String)
    (h : ∀ i, is_retryable (e i) = true) :
    ∀ n attempt lastErr,
      retry_aux delay (fun i => .error (e i)) (n + 1) attempt lastErr =
        ⟨.error (e (attempt + n)),
         (List.range n).map (fun j => delay * (attempt + j + 1)), n + 1⟩ := by
  intro n
  induction n with
  | zero =>
    intro attempt lastErr
    simp [retry_aux, h attempt]
  | succ n ih =>
    intro attempt lastErr
    conv_lhs => rw [retry_aux]
    simp only [h attempt, Nat.zero_lt_succ, true_and, if_true]
    rw [ih (attempt + 1) (e attempt)]
    simp only [OpResult.mk.injEq, List.range_succ_eq_map, List.map_cons,
      List.map_map]
    refine ⟨congrArg _ (congrArg _ (by omega)), ?_, trivial⟩
    simp only [List.cons.injEq]
    refine ⟨by simp, ?_⟩
    apply List.map_congr_left
    intro j _
    simp only [Function.comp]
    congr 1
    omega

/-- Lemma for `retry_qdrant_operation`: a non-retryable failure raises on
the first
attempt, with no delay. -/
theorem retry_aux_permanent (delay : Nat) (f : Nat → Except String Unit)
    (e : String) (n attempt : Nat) (lastErr : String)
    (hf : f attempt = .error e) (hre : is_retryable e = false) :
    retry_aux delay f (n + 1) attempt lastErr = ⟨.error e, [], 1⟩ := by
  conv_lhs => rw [retry_aux]
  rw [hf]
  simp [hre]

/-- Lemma for `retry_qdrant_operation`: `k` retryable failures followed by
a success
yield the success after exactly the `k` backoff delays. -/
theorem retry_aux_fails_then_ok (delay : Nat) (f : Nat → Except String Unit)
    (e : Nat → String) :
    ∀ (k n attempt : Nat) (lastErr : String), k ≤ n →
      (∀ j, j < k → f (attempt + j) = .error (e (attempt + j)) ∧
        is_retryable (e (attempt + j)) = true) →
      f (attempt + k) = .ok () →
      retry_aux delay f (n + 1) attempt lastErr =
        ⟨.ok (), (List.range k).map (fun j => delay * (attempt + j + 1)),
         k + 1⟩ := by
  intro k
  induction k with
  | zero =>
    intro n attempt lastErr _ _ hok
    conv_lhs => rw [retry_aux]
    rw [show f attempt = .ok () from hok]
    simp
  | succ k ih =>
    intro n attempt lastErr hkn hfail hok
    obtain ⟨n', rfl⟩ : ∃ n', n = n' + 1 := ⟨n - 1, by omega⟩
    conv_lhs => rw [retry_aux]
    have h0 := hfail 0 (Nat.succ_pos k)
    simp only [Nat.add_zero] at h0
    rw [h0.1]
    simp only [h0.2, Nat.zero_lt_succ, true_and, if_true]
    have hfail' : ∀ j, j < k →
        f (attempt + 1 + j) = .error (e (attempt + 1 + j)) ∧
        is_retryable (e (attempt + 1 + j)) = true := by
      intro j hj
      have h := hfail (j + 1) (by omega)
      rw [show attempt + (j + 1) = attempt + 1 + j by omega] at h
      exact h
    have hok' : f (attempt + 1 + k) = .ok () := by
      rw [show attempt + 1 + k = attempt + (k + 1) by omega]
      exact hok
    rw [ih n' (attempt + 1) (e attempt) (by omega) hfail' hok']
    simp only [OpResult.mk.injEq, List.range_succ_eq_map, List.map_cons,
      List.map_map, List.cons.injEq]
    refine ⟨trivial, ⟨by simp, ?_⟩, trivial⟩
    apply List.map_congr_left
    intro j _
    simp only [Function.comp]
    congr 1
    omega

/-- upload-tab upsert loop: when every attempt fails with a timeout-class,
non-not-found message, all attempts are consumed with backoff
`2 * attempt_number`, and the last error is raised. -/
theorem upsert_aux_all_timeout (e : Nat → String)
    (cOut : Nat → Except String Unit)
    (ht : ∀ i, upsert_is_timeout (e i) = true)
    (hn : ∀ i, upsert_is_not_found (e i) = false) :
    ∀ n attempt lastErr,
      upsert_loop_aux (fun i => .error (e i)) cOut (n + 1) attempt lastErr =
        ⟨.error (e (attempt + n)),
         (List.range n).map (fun j => 2 * (attempt + j + 1)), n + 1⟩ := by
  intro n
  induction n with
  | zero =>
    intro attempt lastErr
    conv_lhs => rw [upsert_loop_aux]
    simp [ht attempt, hn attempt]
  | succ n ih =>
    intro attempt lastErr
    conv_lhs => rw [upsert_loop_aux]
    simp only [hn attempt, Bool.false_eq_true, if_false, ht attempt,
      Nat.zero_lt_succ, true_and, if_true]
    rw [ih (attempt + 1) (e attempt)]
    simp only [OpResult.mk.injEq, List.range_succ_eq_map, List.map_cons,
      List.map_map, List.cons.injEq]
    refine ⟨congrArg _ (congrArg _ (by omega)), ⟨by simp, ?_⟩, trivial⟩
    apply List.map_congr_left
    intro j _
    simp only [Function.comp]
    congr 1
    omega

/-- upload-tab upsert loop: when every attempt fails with a message that is
neither timeout-class nor not-found-class, the loop silently re-attempts
with no delay and raises only once the attempts are exhausted. -/
theorem upsert_aux_all_permanent (e : Nat → String)
    (cOut : Nat → Except String Unit)
    (ht : ∀ i, upsert_is_timeout (e i) = false)
    (hn : ∀ i, upsert_is_not_found (e i) = false) :
    ∀ n attempt lastErr,
      upsert_loop_aux (fun i => .error (e i)) cOut (n + 1) attempt lastErr =
        ⟨.error (e (attempt + n)), [], n + 1⟩ := by
  intro n
  induction n with
  | zero =>
    intro attempt lastErr
    conv_lhs => rw [upsert_loop_aux]
    simp [ht attempt, hn attempt]
  | succ n ih =>
    intro attempt lastErr
    conv_lhs => rw [upsert_loop_aux]
    simp only [hn attempt, Bool.false_eq_true, if_false, ht attempt,
      false_and, Nat.succ_ne_zero]
    rw [ih (attempt + 1) (e attempt)]
    simp only [OpResult.mk.injEq]
    exact ⟨congrArg _ (congrArg _ (by omega)), trivial, trivial⟩

/-- upload-tab upsert loop: `k` timeout-class failures followed by a
success yield the success after exactly the `k` backoff delays. -/
theorem upsert_aux_fails_then_ok (f cOut : Nat → Except String Unit)
    (e : Nat → String) :
    ∀ (k n attempt : Nat) (lastErr : String), k ≤ n →
      (∀ j, j < k → f (attempt + j) = .error (e (attempt + j)) ∧
        upsert_is_timeout (e (attempt + j)) = true ∧
        upsert_is_not_found (e (attempt + j)) = false) →
      f (attempt + k) = .ok () →
      upsert_loop_aux f cOut (n + 1) attempt lastErr =
        ⟨.ok (), (List.range k).map (fun j => 2 * (attempt + j + 1)),
         k + 1⟩ := by
  intro k
  induction k with
  | zero =>
    intro n attempt lastErr _ _ hok
    conv_lhs => rw [upsert_loop_aux]
    rw [show f attempt = .ok () from hok]
    simp
  | succ k ih =>
    intro n attempt lastErr hkn hfail hok
    obtain ⟨n', rfl⟩ : ∃ n', n = n' + 1 := ⟨n - 1, by omega⟩
    conv_lhs => rw [upsert_loop_aux]
    have h0 := hfail 0 (Nat.succ_pos k)
    simp only [Nat.add_zero] at h0
    rw [h0.1]
    simp only [h0.2.2, Bool.false_eq_true, if_false, h0.2.1,
      Nat.zero_lt_succ, true_and, if_true]
    have hfail' : ∀ j, j < k →
        f (attempt + 1 + j) = .error (e (attempt + 1 + j)) ∧
        upsert_is_timeout (e (attempt + 1 + j)) = true ∧
        upsert_is_not_found (e (attempt + 1 + j)) = false := by
      intro j hj
      have h := hfail (j + 1) (by omega)
      rw [show attempt + (j + 1) = attempt + 1 + j by omega] at h
      exact h
    have hok' : f (attempt + 1 + k) = .ok () := by
      rw [show attempt + 1 + k = attempt + (k + 1) by omega]
      exact hok
    rw [ih n' (attempt + 1) (e attempt) (by omega) hfail' hok']
    simp only [OpResult.mk.injEq, List.range_succ_eq_map, List.map_cons,
      List.map_map, List.cons.injEq]
    refine ⟨trivial, ⟨by simp, ?_⟩, trivial⟩
    apply List.map_congr_left
    intro j _
    simp only [Function.comp]
    congr 1
    omega

/-! ## Claim theorems -/

/-- C1 (amended).  The upload-tab chunker emits exactly the slices
`text[i*(size-overlap) : i*(size-overlap)+size]` in left-to-right order,
empty text yields an empty sequence, and stitching the chunks (first one
whole, every later one with its leading `overlap` characters removed)
reconstructs the text exactly.  `chunk_text` of `src/ingest.py`, however,
emits those slices `strip`-ed, discarding whitespace-only chunks, so the
exact-substring and round-trip parts of the claim hold for the upload-tab
chunker but not for `chunk_text`. -/
theorem upload_chunker_roundtrip (text : List Char) (size overlap : Nat)
    (hsize : 0 < size) (hov : overlap < size) :
    stitch overlap (uploadChunks text size overlap) = text ∧
    (text = [] → uploadChunks text size overlap = []) ∧
    uploadChunks text size overlap =
      (List.range ((text.length + (size - overlap) - 1) / (size - overlap))).map
        (fun i => (text.drop (i * (size - overlap))).take size) ∧
    chunk_text text size overlap =
      ((uploadChunks text size overlap).map pyStrip).filter
        (fun c => !c.isEmpty) := by
  have hd : 0 < size - overlap := by omega
  refine ⟨?_, ?_, ?_, ?_⟩
  · cases text with
    | nil => rfl
    | cons c ts =>
      show stitch overlap
        (chunksAux (c :: ts) size (size - overlap) (ts.length + 1) 0) = c :: ts
      conv_lhs => rw [chunksAux]
      rw [if_pos (by simp)]
      simp only [stitch]
      rw [chunksAux_flatten_drop (c :: ts) size overlap hov ts.length
        (0 + (size - overlap)) (by simp; omega)]
      have h1 : 0 + (size - overlap) + overlap = size := by omega
      rw [h1, List.drop_zero]
      exact List.take_append_drop _ _
  · intro h
    subst h
    rfl
  · have hex := chunksAux_eq_range text size (size - overlap) hd
      text.length 0 (by omega)
    rw [uploadChunks, hex]
    simp
  · exact chunkTextAux_eq text size (size - overlap) text.length 0

/-- Witness for C1 at `text = "abcdefghij"`, `size = 4`, `overlap = 1`. -/
theorem upload_chunker_roundtrip_witness :
    0 < 4 ∧ 1 < 4 ∧
    (stitch 1 (uploadChunks "abcdefghij".toList 4 1) = "abcdefghij".toList ∧
     ("abcdefghij".toList = [] → uploadChunks "abcdefghij".toList 4 1 = []) ∧
     uploadChunks "abcdefghij".toList 4 1 =
       (List.range (("abcdefghij".toList.length + (4 - 1) - 1) / (4 - 1))).map
         (fun i => ("abcdefghij".toList.drop (i * (4 - 1))).take 4) ∧
     chunk_text "abcdefghij".toList 4 1 =
       ((uploadChunks "abcdefghij".toList 4 1).map pyStrip).filter
         (fun c => !c.isEmpty)) :=
  ⟨by decide, by decide,
   upload_chunker_roundtrip "abcdefghij".toList 4 1 (by decide) (by decide)⟩

/-- Counterexample to C1 as stated: on the two-character text `"a "` with
the default parameters, `chunk_text` emits `["a"]`, not the slice
`["a "]`, and stitching does not reconstruct the text. -/
theorem chunk_text_alters_substrings :
    chunk_text "a ".toList 500 100 = ["a".toList] ∧
    chunk_text "a ".toList 500 100 ≠ ["a ".toList] ∧
    stitch 100 (chunk_text "a ".toList 500 100) ≠ "a ".toList := by
  decide

/-- C2 (amended).  The chunk count of the upload-tab chunker is
`ceil(L / (size - overlap))` - written over naturals as
`(L + (size-overlap) - 1) / (size-overlap)`, which is 0 for `L = 0` - and
the 1200-character scenario yields exactly 3 chunks at offsets 0, 400,
800, the last of length 400.  (The claimed formula
`ceil((L-overlap)/(size-overlap))` differs whenever the final chunk is at
most `overlap` characters long; see the counterexample.) -/
theorem chunk_count_code_formula (text : List Char) (size overlap : Nat)
    (hsize : 0 < size) (hov : overlap < size) :
    (uploadChunks text size overlap).length =
      (text.length + (size - overlap) - 1) / (size - overlap) ∧
    (text.length = 1200 → size = 500 → overlap = 100 →
      uploadChunks text size overlap =
        [text.take 500, (text.drop 400).take 500, (text.drop 800).take 500] ∧
      ((text.drop 800).take 500).length = 400) := by
  have hd : 0 < size - overlap := by omega
  have hex := chunksAux_eq_range text size (size - overlap) hd
    text.length 0 (by omega)
  constructor
  · rw [uploadChunks, hex]
    simp
  · rintro hL rfl rfl
    constructor
    · rw [uploadChunks, hex, hL]
      norm_num
      rw [show List.range 3 = [0, 1, 2] from rfl]
      simp
    · rw [List.length_take, List.length_drop, hL]
      omega

/-- Witness for C2 at a 1200-character text with `size=500`, `overlap=100`. -/
theorem chunk_count_code_formula_witness :
    0 < 500 ∧ 100 < 500 ∧
    ((uploadChunks (List.replicate 1200 'a') 500 100).length =
       ((List.replicate 1200 'a' : List Char).length + (500 - 100) - 1) /
         (500 - 100) ∧
     ((List.replicate 1200 'a' : List Char).length = 1200 → 500 = 500 →
       100 = 100 →
       uploadChunks (List.replicate 1200 'a') 500 100 =
         [(List.replicate 1200 'a' : List Char).take 500,
          ((List.replicate 1200 'a' : List Char).drop 400).take 500,
          ((List.replicate 1200 'a' : List Char).drop 800).take 500] ∧
       (((List.replicate 1200 'a' : List Char).drop 800).take 500).length =
         400)) :=
  ⟨by decide, by decide,
   chunk_count_code_formula (List.replicate 1200 'a') 500 100
     (by decide) (by decide)⟩

set_option maxRecDepth 4000 in
/-- Counterexample to C2 as stated: a 401-character text with `size=500`,
`overlap=100` is chunked into 2 chunks (offsets 0 and 400), while the
claimed formula `ceil((L-overlap)/(size-overlap))` gives 1. -/
theorem chunk_count_claimed_formula_false :
    (uploadChunks (List.replicate 401 'a') 500 100).length = 2 ∧
    claimedChunkCount (List.replicate 401 'a' : List Char).length 500 100 = 1 ∧
    (uploadChunks (List.replicate 401 'a') 500 100).length ≠
      claimedChunkCount (List.replicate 401 'a' : List Char).length 500 100 := by
  decide

/-- C3 (amended).  `retry_qdrant_operation` (max_retries=3) implements the
claimed policy exactly: persistent retryable failures consume all 3
attempts with backoff `delay * attempt_number` between consecutive
attempts before raising; a permanent failure raises on the first attempt
with no delay; two retryable failures followed by a success report success
after exactly two backoff delays.  The upload-tab upsert loop agrees on
the retryable and success scenarios (with its hard-coded base delay 2),
but deviates on permanent failures: it silently re-attempts them with no
delay and raises only on the third attempt instead of the first. -/
theorem retry_policy_attempts_and_delays :
    (∀ (delay : Nat) (e : Nat → String), (∀ i, is_retryable (e i) = true) →
      retry_qdrant_operation 3 delay (fun i => .error (e i)) =
        ⟨.error (e 2), [delay * 1, delay * 2], 3⟩) ∧
    (∀ (delay : Nat) (f : Nat → Except String Unit) (e : String),
      f 0 = .error e → is_retryable e = false →
      retry_qdrant_operation 3 delay f = ⟨.error e, [], 1⟩) ∧
    (∀ (delay : Nat) (f : Nat → Except String Unit) (e : Nat → String),
      (∀ j, j < 2 → f j = .error (e j) ∧ is_retryable (e j) = true) →
      f 2 = .ok () →
      retry_qdrant_operation 3 delay f =
        ⟨.ok (), [delay * 1, delay * 2], 3⟩) ∧
    (∀ (f cOut : Nat → Except String Unit) (e : Nat → String),
      (∀ j, j < 2 → f j = .error (e j) ∧ upsert_is_timeout (e j) = true ∧
        upsert_is_not_found (e j) = false) →
      f 2 = .ok () →
      upload_upsert_loop f cOut = ⟨.ok (), [2 * 1, 2 * 2], 3⟩) ∧
    (∀ (e : String) (cOut : Nat → Except String Unit),
      upsert_is_timeout e = false → upsert_is_not_found e = false →
      upload_upsert_loop (fun _ => .error e) cOut = ⟨.error e, [], 3⟩) := by
  refine ⟨?_, ?_, ?_, ?_, ?_⟩
  · intro delay e h
    rw [retry_qdrant_operation]
    refine (retry_aux_all_retryable delay e h 2 0 "").trans ?_
    rw [show List.range 2 = [0, 1] from rfl]
    norm_num
  · intro delay f e hf hre
    rw [retry_qdrant_operation]
    exact retry_aux_permanent delay f e 2 0 "" hf hre
  · intro delay f e hfail hok
    rw [retry_qdrant_operation]
    refine (retry_aux_fails_then_ok delay f e 2 2 0 "" (by omega)
      (by simpa using hfail) (by simpa using hok)).trans ?_
    rw [show List.range 2 = [0, 1] from rfl]
    norm_num
  · intro f cOut e hfail hok
    rw [upload_upsert_loop]
    refine (upsert_aux_fails_then_ok f cOut e 2 2 0 "" (by omega)
      (by simpa using hfail) (by simpa using hok)).trans ?_
    rw [show List.range 2 = [0, 1] from rfl]
    norm_num
  · intro e cOut ht hn
    rw [upload_upsert_loop]
    exact upsert_aux_all_permanent (fun _ => e) cOut (fun _ => ht)
      (fun _ => hn) 2 0 ""

/-- Witness for C3 at the concrete failure strings from the spec. -/
theorem retry_policy_attempts_and_delays_witness :
    retry_qdrant_operation 3 2
        (fun _ => .error "Connection timeout while handshaking") =
      ⟨.error "Connection timeout while handshaking", [2 * 1, 2 * 2], 3⟩ ∧
    retry_qdrant_operation 3 2
        (fun i => if i = 0 then .error "Invalid payload schema"
                  else .ok ()) =
      ⟨.error "Invalid payload schema", [], 1⟩ ∧
    retry_qdrant_operation 3 2
        (fun i => if i < 2 then .error "handshake timeout" else .ok ()) =
      ⟨.ok (), [2 * 1, 2 * 2], 3⟩ ∧
    upload_upsert_loop
        (fun i => if i < 2 then .error "handshake timeout" else .ok ())
        (fun _ => .ok ()) =
      ⟨.ok (), [2 * 1, 2 * 2], 3⟩ ∧
    upload_upsert_loop (fun _ => .error "Invalid payload schema")
        (fun _ => .ok ()) =
      ⟨.error "Invalid payload schema", [], 3⟩ :=
  ⟨retry_policy_attempts_and_delays.1 2
     (fun _ => "Connection timeout while handshaking")
     (fun i => (by decide :
       is_retryable "Connection timeout while handshaking" = true)),
   retry_policy_attempts_and_delays.2.1 2 _ "Invalid payload schema"
     (by decide) (by decide),
   retry_policy_attempts_and_delays.2.2.1 2 _
     (fun _ => "handshake timeout")
     (fun j hj => ⟨if_pos hj,
       (by decide : is_retryable "handshake timeout" = true)⟩) (by decide),
   retry_policy_attempts_and_delays.2.2.2.1 _ _
     (fun _ => "handshake timeout")
     (fun j hj => ⟨if_pos hj,
       (by decide : upsert_is_timeout "handshake timeout" = true),
       (by decide : upsert_is_not_found "handshake timeout" = false)⟩)
     (by decide),
   retry_policy_attempts_and_delays.2.2.2.2 "Invalid payload schema" _
     (by decide) (by decide)⟩

/-- Counterexample to C3 as stated: the upload-tab upsert loop, on a
persistent permanent (non-retryable) failure, performs 3 attempts - not
raising on the first attempt as claimed - with no delays. -/
theorem upsert_loop_permanent_not_first_raise :
    (upload_upsert_loop (fun _ => .error "Invalid payload schema")
      (fun _ => .ok ())).attempts = 3 ∧
    (upload_upsert_loop (fun _ => .error "Invalid payload schema")
      (fun _ => .ok ())).attempts ≠ 1 ∧
    (upload_upsert_loop (fun _ => .error "Invalid payload schema")
      (fun _ => .ok ())).delays = [] := by
  decide

/-- C4 (amended).  The decorator classifier `is_retryable` treats any
description containing `connection` (case-insensitively) as retryable, but
the upload-tab upsert path classifier `is_timeout` checks only timeout,
handshake, and ssl: a description containing only `connection` gets no
backoff there.  Timeout-class failures are retried with backoff by the
upsert loop; failures outside the classifier are not retried with backoff,
yet do not propagate until the last attempt. -/
theorem retry_classification :
    (∀ e, lowerContains "connection" e = true → is_retryable e = true) ∧
    (∀ (e : Nat → String) (cOut : Nat → Except String Unit),
      (∀ i, upsert_is_timeout (e i) = true) →
      (∀ i, upsert_is_not_found (e i) = false) →
      upload_upsert_loop (fun i => .error (e i)) cOut =
        ⟨.error (e 2), [2 * 1, 2 * 2], 3⟩) ∧
    (∀ (e : String) (cOut : Nat → Except String Unit),
      upsert_is_timeout e = false → upsert_is_not_found e = false →
      (upload_upsert_loop (fun _ => .error e) cOut).delays = [] ∧
      (upload_upsert_loop (fun _ => .error e) cOut).outcome = .error e) := by
  refine ⟨?_, ?_, ?_⟩
  · intro e he
    simp [is_retryable, he]
  · intro e cOut ht hn
    rw [upload_upsert_loop]
    refine (upsert_aux_all_timeout e cOut ht hn 2 0 "").trans ?_
    rw [show List.range 2 = [0, 1] from rfl]
    norm_num
  · intro e cOut ht hn
    rw [upload_upsert_loop,
      show upsert_loop_aux (fun _ => Except.error e) cOut 3 0 "" =
          ⟨.error e, [], 3⟩ from
        upsert_aux_all_permanent (fun _ => e) cOut (fun _ => ht)
          (fun _ => hn) 2 0 ""]
    exact ⟨rfl, rfl⟩

/-- Witness for C4 at concrete descriptions. -/
theorem retry_classification_witness :
    is_retryable "Connection refused by peer" = true ∧
    upload_upsert_loop (fun _ => .error "TLS handshake timeout")
        (fun _ => .ok ()) =
      ⟨.error "TLS handshake timeout", [2 * 1, 2 * 2], 3⟩ ∧
    ((upload_upsert_loop (fun _ => .error "Connection refused by peer")
        (fun _ => .ok ())).delays = [] ∧
     (upload_upsert_loop (fun _ => .error "Connection refused by peer")
        (fun _ => .ok ())).outcome = .error "Connection refused by peer") :=
  ⟨retry_classification.1 "Connection refused by peer" (by decide),
   retry_classification.2.1 (fun _ => "TLS handshake timeout") _
     (fun i => (by decide : upsert_is_timeout "TLS handshake timeout" = true))
     (fun i => (by decide :
       upsert_is_not_found "TLS handshake timeout" = false)),
   retry_classification.2.2 "Connection refused by peer" _
     (by decide) (by decide)⟩

/-- Counterexample to C4 as stated: `"Connection refused"` contains the
connection keyword yet the upsert path classifier rejects it, and the
upsert loop never backs off on it (while the unused decorator classifier
would accept it). -/
theorem upsert_loop_connection_not_retryable :
    upsert_is_timeout "Connection refused" = false ∧
    is_retryable "Connection refused" = true ∧
    (upload_upsert_loop (fun _ => .error "Connection refused")
      (fun _ => .ok ())).delays = [] := by
  decide

/-- C5 (amended).  `embed` is deterministic for a fixed loaded model, and
the `app.py`/`main.py` `embed` passes `normalize_embeddings=True`, so its
output is L2-normalized whenever the encoder honours the normalization
request.  The `ingest.py` `embed` passes no normalization flag, so no such
guarantee follows from the source (see the counterexample). -/
theorem embed_requested_normalization (model : String → Bool → List ℚ)
    (hm : NormalizedEncode model) (x : String) :
    sumSq (appEmbed model x) = 1 ∧
    appEmbed model x = appEmbed model x ∧
    ingestEmbed model x = ingestEmbed model x :=
  ⟨hm x, rfl, rfl⟩

/-- Witness for C5 at a concrete encoder honouring the normalization
request. -/
theorem embed_requested_normalization_witness :
    NormalizedEncode (fun _ b => if b then [1] else [3, 4]) ∧
    (sumSq (appEmbed (fun _ b => if b then [1] else [3, 4]) "query") = 1 ∧
     appEmbed (fun _ b => if b then [1] else [3, 4]) "query" =
       appEmbed (fun _ b => if b then [1] else [3, 4]) "query" ∧
     ingestEmbed (fun _ b => if b then [1] else [3, 4]) "query" =
       ingestEmbed (fun _ b => if b then [1] else [3, 4]) "query") :=
  ⟨fun t => by norm_num [sumSq],
   embed_requested_normalization _ (fun t => by norm_num [sumSq]) "query"⟩

/-- Counterexample to C5 as stated: an encoder that honours the
normalization request when asked (as `app.py` asks) but returns an
unnormalized vector otherwise makes the `embed` of `ingest.py` - which never
asks - return a vector of squared norm 25: the universal normalization
claim does not follow from the source. -/
theorem ingest_embed_unnormalized_model :
    NormalizedEncode (fun _ b => if b then [1] else [3, 4]) ∧
    sumSq (ingestEmbed (fun _ b => if b then [1] else [3, 4]) "query") = 25 ∧
    sumSq (ingestEmbed (fun _ b => if b then [1] else [3, 4]) "query") ≠ 1 :=
  ⟨fun t => by norm_num [sumSq],
   by norm_num [sumSq, ingestEmbed],
   by norm_num [sumSq, ingestEmbed]⟩

/-- C6 (confirmed).  A query against a never-created collection (the
existence check fails with a non-exceptional store: creation succeeds and
the fresh collection returns no points) ends in the no-documents sentinel
warning telling the user to upload a document first - not in an exception
and not in any other outcome. -/
theorem query_missing_collection_sentinel (query e : String)
    (llm : String → String → String) :
    searchFlow query true (.error e) (.ok ()) (.ok []) llm =
      .noResultsWarn := by
  have hens : ensure_collection_exists true (.error e) (.ok ()) false
      = true := by
    rw [ensure_collection_exists]
    cases h : ensure_is_timeout e <;> simp [h]
  simp [searchFlow, hens]

/-- C7 (amended).  In the upload tab the `i`-th point id is the `i`-th
draw of `np.random.randint(1_000_000_000)`; in `store_chunks` of
`src/ingest.py` the id is the chunk index itself, a fixed deterministic
function of position, so re-ingesting the same document reuses the same
ids there. -/
theorem point_id_assignment (model : String → Bool → List ℚ)
    (rng : Nat → Nat) (chunks : List String) :
    (appPoints model rng chunks).map Point.id =
      (List.range chunks.length).map rng ∧
    (store_chunks model chunks).map Point.id =
      List.range chunks.length := by
  have key : ∀ (g : Nat → Nat),
      (chunks.enum.map (fun ic => g ic.1)) =
        (List.range chunks.length).map g := by
    intro g
    rw [List.enum_eq_zip_range,
      show (fun (ic : Nat × String) => g ic.1) = g ∘ Prod.fst from rfl,
      ← List.map_map, List.map_fst_zip _ _ (by simp)]
  constructor
  · rw [appPoints, List.map_map]
    exact key rng
  · rw [store_chunks, List.map_map]
    exact (key (fun n => n)).trans (List.map_id _)

/-- Counterexample to C7 as stated: `store_chunks` takes no source of
randomness at all, and the ids it attaches are exactly the chunk
positions. -/
theorem store_chunks_ids_positional :
    (store_chunks (fun _ _ => []) ["alpha", "beta"]).map Point.id = [0, 1] ∧
    (store_chunks (fun _ _ => []) ["alpha", "beta"]).map Point.id =
      List.range (["alpha", "beta"] : List String).length := by
  decide

/-- C8 (amended).  `.doc` and `.ppt` inputs are dispatched to the modern
parsers, not rejected up front.  Only when the parser raises does
extraction fail with a message instructing conversion to the modern
format: for `.doc`, always; for `.ppt`, only when the parse error is not
classified as a corrupt/non-zip package (those yield an invalid-file
message instead). -/
theorem legacy_extension_dispatch :
    (∀ (pdfPages : List String) (fod : Bool) (fsz : Nat)
       (pptxOut : Except String (List (List PShape))) (txt e : String),
      extract_text_from_file ".doc" pdfPages (.error e) fod fsz pptxOut txt =
        .error ("Error reading Word document. For .doc files, please convert to .docx format. Error: " ++ e)) ∧
    (∀ (pdfPages : List String) (fod : Bool) (fsz : Nat)
       (pptxOut : Except String (List (List PShape))) (txt : String)
       (paras : List String),
      extract_text_from_file ".doc" pdfPages (.ok paras) fod fsz pptxOut txt =
        .ok (String.intercalate "\n"
               (paras.filter (fun p => !(pyStrip p.toList).isEmpty)),
             paras.length)) ∧
    (∀ (pdfPages : List String) (docxOut : Except String (List String))
       (fsz : Nat) (txt pe : String),
      containsCS "Package not found" pe = false →
      lowerContains "not a zip file" pe = false →
      extract_text_from_file ".ppt" pdfPages docxOut true (fsz + 1)
          (.error pe) txt =
        .error ("Error reading PowerPoint file. Legacy .ppt format is not fully supported. Please convert to .pptx format. Error: " ++ pe)) ∧
    (∀ (pdfPages : List String) (docxOut : Except String (List String))
       (fsz : Nat) (txt pe : String),
      containsCS "Package not found" pe = true →
      extract_text_from_file ".ppt" pdfPages docxOut true (fsz + 1)
          (.error pe) txt =
        .error ("Invalid PowerPoint file. The file may be corrupted, incomplete, or not actually a PowerPoint file. If downloading from SharePoint, ensure you have a direct download link. Error: " ++ pe)) := by
  refine ⟨fun _ _ _ _ _ _ => rfl, fun _ _ _ _ _ _ => rfl, ?_, ?_⟩
  · intro pdfPages docxOut fsz txt pe h1 h2
    rw [show extract_text_from_file ".ppt" pdfPages docxOut true (fsz + 1)
          (.error pe) txt =
        (if containsCS "Package not found" pe ||
            lowerContains "not a zip file" pe then
          Except.error ("Invalid PowerPoint file. The file may be corrupted, incomplete, or not actually a PowerPoint file. If downloading from SharePoint, ensure you have a direct download link. Error: " ++ pe)
        else
          Except.error ("Error reading PowerPoint file. Legacy .ppt format is not fully supported. Please convert to .pptx format. Error: " ++ pe))
      from rfl]
    simp [h1, h2]
  · intro pdfPages docxOut fsz txt pe h1
    rw [show extract_text_from_file ".ppt" pdfPages docxOut true (fsz + 1)
          (.error pe) txt =
        (if containsCS "Package not found" pe ||
            lowerContains "not a zip file" pe then
          Except.error ("Invalid PowerPoint file. The file may be corrupted, incomplete, or not actually a PowerPoint file. If downloading from SharePoint, ensure you have a direct download link. Error: " ++ pe)
        else
          Except.error ("Error reading PowerPoint file. Legacy .ppt format is not fully supported. Please convert to .pptx format. Error: " ++ pe))
      from rfl]
    simp [h1]

/-- Witness for C8 at concrete parse errors. -/
theorem legacy_extension_dispatch_witness :
    containsCS "Package not found" "boom" = false ∧
    lowerContains "not a zip file" "boom" = false ∧
    containsCS "Package not found" "Package not found at /tmp/f.ppt" = true ∧
    extract_text_from_file ".doc" [] (.error "no zip") false 0 (.ok []) "" =
      .error ("Error reading Word document. For .doc files, please convert to .docx format. Error: " ++ "no zip") ∧
    extract_text_from_file ".ppt" [] (.ok []) true (0 + 1) (.error "boom") "" =
      .error ("Error reading PowerPoint file. Legacy .ppt format is not fully supported. Please convert to .pptx format. Error: " ++ "boom") ∧
    extract_text_from_file ".ppt" [] (.ok []) true (0 + 1)
        (.error "Package not found at /tmp/f.ppt") "" =
      .error ("Invalid PowerPoint file. The file may be corrupted, incomplete, or not actually a PowerPoint file. If downloading from SharePoint, ensure you have a direct download link. Error: " ++ "Package not found at /tmp/f.ppt") :=
  ⟨by decide, by decide, by decide,
   legacy_extension_dispatch.1 [] false 0 (.ok []) "" "no zip",
   legacy_extension_dispatch.2.2.1 [] (.ok []) 0 "" "boom"
     (by decide) (by decide),
   legacy_extension_dispatch.2.2.2 [] (.ok []) 0 ""
     "Package not found at /tmp/f.ppt" (by decide)⟩

/-- Counterexample to C8 as stated: a `.doc` (resp. `.ppt`) byte stream
that the modern parser accepts is extracted successfully - no
unconditional legacy-format failure occurs before parsing. -/
theorem legacy_doc_parse_succeeds :
    extract_text_from_file ".doc" [] (.ok ["hello"]) true 1 (.ok []) "" =
      .ok ("hello", 1) ∧
    extract_text_from_file ".ppt" [] (.ok []) true 1
        (.ok [[⟨some "slide text", none⟩]]) "" =
      .ok ("slide text", 1) := by
  decide

/-- C9.  On the empty-extraction exit path of the upload-tab ingestion
flow the staged temporary file is left on disk (the branch renders the
error banner and falls off the end of the `try` block without
`os.unlink`), while the extraction-failure and success exits do delete
it. -/
theorem empty_extraction_leaves_tempfile :
    uploadFlow (fun _ _ => []) (fun _ => 0) (.ok ("  \n ", 2))
      (fun _ => .ok ()) (fun _ => .ok ()) = ⟨.emptyExtract, true⟩ ∧
    (uploadFlow (fun _ _ => []) (fun _ => 0) (.error "boom")
      (fun _ => .ok ()) (fun _ => .ok ())).tempFileRemains = false ∧
    (uploadFlow (fun _ _ => []) (fun _ => 0) (.ok ("hello", 1))
      (fun _ => .ok ()) (fun _ => .ok ())).tempFileRemains = false := by
  decide

/-- C10 (confirmed).  `ensure_collection_exists` is total by construction
(every branch of the source returns) and returns `True` for every
combination of check/create outcomes whenever the client handle is
present - including timeout-classified check failures, already-exists
creation failures, and permanent creation failures - and `False` exactly
when the client handle is absent. -/
theorem ensure_collection_exists_total :
    (∀ (g c : Except String Unit) (s : Bool),
      ensure_collection_exists true g c s = true) ∧
    (∀ (g c : Except String Unit) (s : Bool),
      ensure_collection_exists false g c s = false) := by
  constructor
  · intro g c s
    cases g with
    | ok u => simp [ensure_collection_exists]
    | error ce =>
      cases h : ensure_is_timeout ce with
      | true => simp [ensure_collection_exists, h]
      | false =>
        cases c with
        | ok u => simp [ensure_collection_exists, h]
        | error ce2 => simp [ensure_collection_exists, h, ite_self]
  · intro g c s
    rfl
